import Mathlib

/-!
Shallow embedding of the `server-r-client` Rust crate (xflash-panda), covering
the parts the specification claims talk about:

* `src/models/node_type.rs` — the `NodeType` enum, `as_str`, `Display`, `FromStr`;
* `src/models/user.rs` — `UserTraffic` (serde round-trip) and `TrafficStats`;
* `src/models/config.rs` — `bool_from_int`, the per-protocol config records,
  `NodeConfigEnum` with its narrowing accessors and `type_name`, `parse_config`;
* `src/error.rs` — the `ApiError` taxonomy;
* `src/client.rs` — `check_response` and the pure request/cache logic of
  `get_with_etag` (ETag lookup, conditional header, 304 handling, cache update).

JSON values are modelled by an inductive `Json` type standing for the
`serde_json` value space actually exercised by this crate (null, booleans,
integers, strings, arrays, objects; floating-point numbers are never produced
or consumed by the decoded shapes under study).  Rust's `i64`/`u16`/`u64` are
modelled as `Int`/`Nat` with explicit range checks where the source's decoders
would reject out-of-range numbers.  `HashMap` is modelled as an association
list with overwrite-on-insert semantics; lookups are by key so the modelling
choice does not leak into the stated properties.
-/

namespace ServerRClient

/-- Model of the `serde_json::Value` space used by this crate. -/
inductive Json where
  | null : Json
  | bool (b : Bool) : Json
  | int (n : Int) : Json
  | str (s : String) : Json
  | arr (xs : List Json) : Json
  | obj (fields : List (String × Json)) : Json
deriving Repr, Inhabited

instance {ε α : Type} [DecidableEq ε] [DecidableEq α] : DecidableEq (Except ε α) := fun a b =>
  match a, b with
  | .ok x, .ok y =>
    if h : x = y then isTrue (by rw [h]) else isFalse (fun hc => h (by injection hc))
  | .error e, .error f =>
    if h : e = f then isTrue (by rw [h]) else isFalse (fun hc => h (by injection hc))
  | .ok _, .error _ => isFalse (fun hc => Except.noConfusion hc)
  | .error _, .ok _ => isFalse (fun hc => Except.noConfusion hc)

/-- Look up a field of a JSON object's field list (first occurrence). -/
def Json.getField (fields : List (String × Json)) (key : String) : Option Json :=
  (fields.find? (fun p => p.1 = key)).map Prod.snd

/-! ## `src/models/node_type.rs`

The enum as written in `node_type.rs` lines 7–17: exactly six variants
(`Trojan`, `ShadowSocks`, `Hysteria`, `Hysteria2`, `VMess`, `AnyTLS`).  Other
files of the crate (`config.rs` line 525, `examples/all_node_types.rs`)
additionally reference a `NodeType::Tuic` variant, which this file does not
declare — the crate is internally inconsistent there; the embedding follows
the declaring file. -/
inductive NodeType where
  | Trojan
  | ShadowSocks
  | Hysteria
  | Hysteria2
  | VMess
  | AnyTLS
deriving DecidableEq, Repr, Inhabited

/-- `NodeType::as_str` — the URL path segment (also the `Display` form). -/
def NodeType.as_str : NodeType → String
  | .Trojan => "trojan"
  | .ShadowSocks => "shadowsocks"
  | .Hysteria => "hysteria"
  | .Hysteria2 => "hysteria2"
  | .VMess => "vmess"
  | .AnyTLS => "anytls"

/-- Rust's `str::to_lowercase()`, modelled character-wise (the node-type
names are ASCII, where per-character lowercasing agrees with Rust). -/
def toLowerStr (s : String) : String := ⟨s.data.map Char.toLower⟩

/-- `impl FromStr for NodeType` — case-insensitive parse with the `"ss"`
alias; unknown inputs yield `Err(format!("Unknown node type: {}", s))`. -/
def NodeType.fromStr (s : String) : Except String NodeType :=
  match toLowerStr s with
  | "trojan" => .ok .Trojan
  | "shadowsocks" => .ok .ShadowSocks
  | "ss" => .ok .ShadowSocks
  | "hysteria" => .ok .Hysteria
  | "hysteria2" => .ok .Hysteria2
  | "vmess" => .ok .VMess
  | "anytls" => .ok .AnyTLS
  | _ => .error ("Unknown node type: " ++ s)

/-! ## `src/error.rs` — the `ApiError` taxonomy.

`NetworkError`/`ParseError` carry an optional transport/serde source error in
Rust; the source error object itself is irrelevant to every claim and is
dropped (only `message` and `url` are observable in the claims). -/
inductive ApiError where
  | ServerError (status_code : Nat) (message : String) (url : String)
  | NetworkError (message : String) (url : String)
  | ParseError (message : String) (url : String)
  | NotModified (url : String)
  | Unknown (message : String)
  | ConfigError (message : String)
  | TypeConversionError (expected : String) (actual : String)
deriving DecidableEq, Repr

/-! ## `src/models/user.rs` -/

/-- `UserTraffic` — per-user traffic record.  `u`, `d`, `n` are `u64` in the
source; modelled as `Nat` (the u64 range condition appears explicitly in the
decoder and in range hypotheses of theorems). -/
structure UserTraffic where
  user_id : Int
  u : Nat
  d : Nat
  n : Nat
deriving DecidableEq, Repr

/-- serde serialization of `UserTraffic`: plain struct serialization, all four
fields under their own (single-letter, for u/d/n) names. -/
def UserTraffic.toJson (t : UserTraffic) : Json :=
  .obj [("user_id", .int t.user_id), ("u", .int t.u), ("d", .int t.d), ("n", .int t.n)]

/-- Decode an `i64` from JSON (serde rejects non-integers and out-of-range). -/
def decodeI64 (j : Json) : Except String Int :=
  match j with
  | .int n => if -(2 ^ 63) ≤ n ∧ n < 2 ^ 63 then .ok n else .error "invalid value: integer out of range of i64"
  | _ => .error "invalid type: expected i64"

/-- Decode a `u64` from JSON. -/
def decodeU64 (j : Json) : Except String Nat :=
  match j with
  | .int n => if 0 ≤ n ∧ n < 2 ^ 64 then .ok n.toNat else .error "invalid value: integer out of range of u64"
  | _ => .error "invalid type: expected u64"

/-- Decode a `u16` from JSON. -/
def decodeU16 (j : Json) : Except String Nat :=
  match j with
  | .int n => if 0 ≤ n ∧ n < 2 ^ 16 then .ok n.toNat else .error "invalid value: integer out of range of u16"
  | _ => .error "invalid type: expected u16"

/-- serde deserialization of `UserTraffic`: `user_id`, `u`, `d` required,
`n` carries `#[serde(default)]` so an absent field decodes to `0`. -/
def UserTraffic.fromJson (j : Json) : Except String UserTraffic := do
  match j with
  | .obj fields => do
    let user_id ← match Json.getField fields "user_id" with
      | some v => decodeI64 v
      | none => .error "missing field user_id"
    let u ← match Json.getField fields "u" with
      | some v => decodeU64 v
      | none => .error "missing field u"
    let d ← match Json.getField fields "d" with
      | some v => decodeU64 v
      | none => .error "missing field d"
    let n ← match Json.getField fields "n" with
      | some v => decodeU64 v
      | none => .ok 0
    .ok { user_id := user_id, u := u, d := d, n := n }
  | _ => .error "invalid type: expected struct UserTraffic"

/-- The field list of a JSON object (empty for non-objects). -/
def Json.objFields : Json → List (String × Json)
  | .obj fields => fields
  | _ => []

/-- Association-list model of `HashMap<i64, i64>`: overwrite on existing key,
append otherwise.  Keys stay pairwise distinct when built from the empty map,
so `List.length` is the map's entry count. -/
def mapInsert (m : List (Int × Int)) (k v : Int) : List (Int × Int) :=
  if m.any (fun p => p.1 = k) then m.map (fun p => if p.1 = k then (k, v) else p)
  else m ++ [(k, v)]

/-- `HashMap::get` on the association-list model. -/
def mapGet (m : List (Int × Int)) (k : Int) : Option Int :=
  (m.find? (fun p => p.1 = k)).map Prod.snd

/-- `TrafficStats` — aggregated traffic statistics.  `count`/`requests` are
`i64` in the source, modelled as `Int`. -/
structure TrafficStats where
  count : Int
  requests : Int
  user_ids : List Int
  user_requests : List (Int × Int)
deriving DecidableEq, Repr

/-- `TrafficStats::new()`. -/
def TrafficStats.new : TrafficStats :=
  { count := 0, requests := 0, user_ids := [], user_requests := [] }

/-- `TrafficStats::add_user(&mut self, user_id, requests)`: pushes the id,
inserts/overwrites the per-user count, adds to `requests`, increments `count`. -/
def TrafficStats.add_user (s : TrafficStats) (user_id requests : Int) : TrafficStats :=
  { count := s.count + 1
    requests := s.requests + requests
    user_ids := s.user_ids ++ [user_id]
    user_requests := mapInsert s.user_requests user_id requests }

/-! ## `src/models/config.rs` — decoding primitives

serde derive semantics modelled: a struct decodes from a JSON object; unknown
fields are ignored; a field marked `#[serde(default)]` falls back to its
default when absent; `Option<T>` decodes `null` to `None` and any other value
through `T`'s decoder. -/

/-- Decode a JSON string. -/
def decodeString : Json → Except String String
  | .str s => .ok s
  | _ => .error "invalid type: expected string"

/-- Decode a JSON boolean (strict; no integer leniency). -/
def decodeBool : Json → Except String Bool
  | .bool b => .ok b
  | _ => .error "invalid type: expected bool"

/-- Decode an `i32` from JSON. -/
def decodeI32 (j : Json) : Except String Int :=
  match j with
  | .int n => if -(2 ^ 31) ≤ n ∧ n < 2 ^ 31 then .ok n else .error "invalid value: integer out of range of i32"
  | _ => .error "invalid type: expected i32"

/-- `Option<T>` deserialization: `null` → `None`, otherwise `Some` of `T`. -/
def decodeOption (dec : Json → Except String α) : Json → Except String (Option α)
  | .null => .ok none
  | j => some <$> dec j

/-- `Vec<T>` deserialization. -/
def decodeList (dec : Json → Except String α) : Json → Except String (List α)
  | .arr xs => xs.mapM dec
  | _ => .error "invalid type: expected sequence"

/-- `HashMap<String, String>` deserialization (association-list model). -/
def decodeStringMap : Json → Except String (List (String × String))
  | .obj fields => fields.mapM (fun p => do pure (p.1, ← decodeString p.2))
  | _ => .error "invalid type: expected map"

/-- `HashMap<String, Vec<String>>` deserialization. -/
def decodeStringListMap : Json → Except String (List (String × List String))
  | .obj fields => fields.mapM (fun p => do pure (p.1, ← decodeList decodeString p.2))
  | _ => .error "invalid type: expected map"

/-- A required struct field (no `#[serde(default)]`). -/
def reqField (fields : List (String × Json)) (name : String) (dec : Json → Except String α) : Except String α :=
  match Json.getField fields name with
  | some v => dec v
  | none => .error ("missing field " ++ name)

/-- A struct field with `#[serde(default)]`: absent decodes to the default. -/
def optField (fields : List (String × Json)) (name : String) (dec : Json → Except String α) (dflt : α) : Except String α :=
  match Json.getField fields name with
  | some v => dec v
  | none => .ok dflt

/-- `bool_from_int` (`config.rs` lines 8–23): a boolean that might come as an
integer.  The untagged `BoolOrInt` enum accepts a JSON bool as itself and a
JSON integer `i` as `i != 0`; anything else fails deserialization. -/
def bool_from_int (j : Json) : Except String Bool :=
  match j with
  | .bool b => .ok b
  | .int i => .ok (decide (i ≠ 0))
  | _ => .error "data did not match any variant of untagged enum BoolOrInt"

/-! ### Nested configuration records -/

/-- `TlsConfig`. -/
structure TlsConfig where
  server_name : Option String
  certificate : Option String
  private_key : Option String
deriving DecidableEq, Repr

def decodeTlsConfig : Json → Except String TlsConfig
  | .obj fields => do
    let server_name ← optField fields "server_name" (decodeOption decodeString) none
    let certificate ← optField fields "certificate" (decodeOption decodeString) none
    let private_key ← optField fields "private_key" (decodeOption decodeString) none
    .ok { server_name := server_name, certificate := certificate, private_key := private_key }
  | _ => .error "invalid type: expected struct TlsConfig"

/-- `WebSocketConfig`. -/
structure WebSocketConfig where
  path : Option String
  headers : Option (List (String × String))
deriving DecidableEq, Repr

def decodeWebSocketConfig : Json → Except String WebSocketConfig
  | .obj fields => do
    let path ← optField fields "path" (decodeOption decodeString) none
    let headers ← optField fields "headers" (decodeOption decodeStringMap) none
    .ok { path := path, headers := headers }
  | _ => .error "invalid type: expected struct WebSocketConfig"

/-- `HttpConfig` (HTTP/2). -/
structure HttpConfig where
  host : Option (List String)
  path : Option String
deriving DecidableEq, Repr

def decodeHttpConfig : Json → Except String HttpConfig
  | .obj fields => do
    let host ← optField fields "host" (decodeOption (decodeList decodeString)) none
    let path ← optField fields "path" (decodeOption decodeString) none
    .ok { host := host, path := path }
  | _ => .error "invalid type: expected struct HttpConfig"

/-- `TcpHeaderRequest`. -/
structure TcpHeaderRequest where
  version : Option String
  method : Option String
  path : Option (List String)
  headers : Option (List (String × List String))
deriving DecidableEq, Repr

def decodeTcpHeaderRequest : Json → Except String TcpHeaderRequest
  | .obj fields => do
    let version ← optField fields "version" (decodeOption decodeString) none
    let method ← optField fields "method" (decodeOption decodeString) none
    let path ← optField fields "path" (decodeOption (decodeList decodeString)) none
    let headers ← optField fields "headers" (decodeOption decodeStringListMap) none
    .ok { version := version, method := method, path := path, headers := headers }
  | _ => .error "invalid type: expected struct TcpHeaderRequest"

/-- `TcpHeaderResponse`. -/
structure TcpHeaderResponse where
  version : Option String
  status : Option String
  reason : Option String
  headers : Option (List (String × List String))
deriving DecidableEq, Repr

def decodeTcpHeaderResponse : Json → Except String TcpHeaderResponse
  | .obj fields => do
    let version ← optField fields "version" (decodeOption decodeString) none
    let status ← optField fields "status" (decodeOption decodeString) none
    let reason ← optField fields "reason" (decodeOption decodeString) none
    let headers ← optField fields "headers" (decodeOption decodeStringListMap) none
    .ok { version := version, status := status, reason := reason, headers := headers }
  | _ => .error "invalid type: expected struct TcpHeaderResponse"

/-- `TcpHeader` (`header_type` is serialized under the key `"type"`). -/
structure TcpHeader where
  header_type : Option String
  request : Option TcpHeaderRequest
  response : Option TcpHeaderResponse
deriving DecidableEq, Repr

def decodeTcpHeader : Json → Except String TcpHeader
  | .obj fields => do
    let header_type ← optField fields "type" (decodeOption decodeString) none
    let request ← optField fields "request" (decodeOption decodeTcpHeaderRequest) none
    let response ← optField fields "response" (decodeOption decodeTcpHeaderResponse) none
    .ok { header_type := header_type, request := request, response := response }
  | _ => .error "invalid type: expected struct TcpHeader"

/-- `TcpConfig`. -/
structure TcpConfig where
  header : Option TcpHeader
deriving DecidableEq, Repr

def decodeTcpConfig : Json → Except String TcpConfig
  | .obj fields => do
    let header ← optField fields "header" (decodeOption decodeTcpHeader) none
    .ok { header := header }
  | _ => .error "invalid type: expected struct TcpConfig"

/-- `GrpcConfig`. -/
structure GrpcConfig where
  service_name : Option String
deriving DecidableEq, Repr

def decodeGrpcConfig : Json → Except String GrpcConfig
  | .obj fields => do
    let service_name ← optField fields "service_name" (decodeOption decodeString) none
    .ok { service_name := service_name }
  | _ => .error "invalid type: expected struct GrpcConfig"

/-- `RouterRule` (`rule_type` is serialized under the key `"type"`). -/
structure RouterRule where
  rule_type : Option String
  domain : Option (List String)
  ip : Option (List String)
  outbound_tag : Option String
deriving DecidableEq, Repr

def decodeRouterRule : Json → Except String RouterRule
  | .obj fields => do
    let rule_type ← optField fields "type" (decodeOption decodeString) none
    let domain ← optField fields "domain" (decodeOption (decodeList decodeString)) none
    let ip ← optField fields "ip" (decodeOption (decodeList decodeString)) none
    let outbound_tag ← optField fields "outbound_tag" (decodeOption decodeString) none
    .ok { rule_type := rule_type, domain := domain, ip := ip, outbound_tag := outbound_tag }
  | _ => .error "invalid type: expected struct RouterRule"

/-- `RouterConfig`. -/
structure RouterConfig where
  rules : Option (List RouterRule)
deriving DecidableEq, Repr

def decodeRouterConfig : Json → Except String RouterConfig
  | .obj fields => do
    let rules ← optField fields "rules" (decodeOption (decodeList decodeRouterRule)) none
    .ok { rules := rules }
  | _ => .error "invalid type: expected struct RouterConfig"

/-- `DnsServer` — untagged: either a bare string or a record with a required
`address` and optional `port`/`domains`.  Untagged deserialization tries the
variants in declaration order (`Simple` first). -/
inductive DnsServer where
  | Simple (s : String)
  | Complex (address : String) (port : Option Nat) (domains : Option (List String))
deriving DecidableEq, Repr

def decodeDnsServer (j : Json) : Except String DnsServer :=
  match j with
  | .str s => .ok (.Simple s)
  | .obj fields => do
    let address ← reqField fields "address" decodeString
    let port ← optField fields "port" (decodeOption decodeU16) none
    let domains ← optField fields "domains" (decodeOption (decodeList decodeString)) none
    .ok (.Complex address port domains)
  | _ => .error "data did not match any variant of untagged enum DnsServer"

/-- `DnsConfig`. -/
structure DnsConfig where
  servers : Option (List DnsServer)
deriving DecidableEq, Repr

def decodeDnsConfig : Json → Except String DnsConfig
  | .obj fields => do
    let servers ← optField fields "servers" (decodeOption (decodeList decodeDnsServer)) none
    .ok { servers := servers }
  | _ => .error "invalid type: expected struct DnsConfig"

/-! ### Per-protocol configuration records -/

/-- `TrojanConfig`. -/
structure TrojanConfig where
  id : Int
  server_port : Nat
  server_name : Option String
  network : Option String
  websocket_config : Option WebSocketConfig
  grpc_config : Option GrpcConfig
deriving DecidableEq, Repr

def decodeTrojanConfig : Json → Except String TrojanConfig
  | .obj fields => do
    let id ← reqField fields "id" decodeI64
    let server_port ← reqField fields "server_port" decodeU16
    let server_name ← optField fields "server_name" (decodeOption decodeString) none
    let network ← optField fields "network" (decodeOption decodeString) none
    let websocket_config ← optField fields "websocket_config" (decodeOption decodeWebSocketConfig) none
    let grpc_config ← optField fields "grpc_config" (decodeOption decodeGrpcConfig) none
    .ok { id := id, server_port := server_port, server_name := server_name,
          network := network, websocket_config := websocket_config, grpc_config := grpc_config }
  | _ => .error "invalid type: expected struct TrojanConfig"

/-- `ShadowsocksConfig`. -/
structure ShadowsocksConfig where
  id : Int
  server_port : Nat
  method : Option String
  network : Option String
deriving DecidableEq, Repr

def decodeShadowsocksConfig : Json → Except String ShadowsocksConfig
  | .obj fields => do
    let id ← reqField fields "id" decodeI64
    let server_port ← reqField fields "server_port" decodeU16
    let method ← optField fields "method" (decodeOption decodeString) none
    let network ← optField fields "network" (decodeOption decodeString) none
    .ok { id := id, server_port := server_port, method := method, network := network }
  | _ => .error "invalid type: expected struct ShadowsocksConfig"

/-- `HysteriaConfig`. -/
structure HysteriaConfig where
  id : Int
  server_port : Nat
  protocol : Option String
  obfs : Option String
  up_mbps : Option Int
  down_mbps : Option Int
  disable_mtu_discovery : Bool
  disable_udp : Bool
deriving DecidableEq, Repr

def decodeHysteriaConfig : Json → Except String HysteriaConfig
  | .obj fields => do
    let id ← reqField fields "id" decodeI64
    let server_port ← reqField fields "server_port" decodeU16
    let protocol ← optField fields "protocol" (decodeOption decodeString) none
    let obfs ← optField fields "obfs" (decodeOption decodeString) none
    let up_mbps ← optField fields "up_mbps" (decodeOption decodeI32) none
    let down_mbps ← optField fields "down_mbps" (decodeOption decodeI32) none
    let disable_mtu_discovery ← optField fields "disable_mtu_discovery" decodeBool false
    let disable_udp ← optField fields "disable_udp" decodeBool false
    .ok { id := id, server_port := server_port, protocol := protocol, obfs := obfs,
          up_mbps := up_mbps, down_mbps := down_mbps,
          disable_mtu_discovery := disable_mtu_discovery, disable_udp := disable_udp }
  | _ => .error "invalid type: expected struct HysteriaConfig"

/-- `Hysteria2Config`. -/
structure Hysteria2Config where
  id : Int
  server_port : Nat
  obfs : Option String
  up_mbps : Option Int
  down_mbps : Option Int
  ignore_cli_bandwidth : Bool
  disable_udp : Bool
deriving DecidableEq, Repr

def decodeHysteria2Config : Json → Except String Hysteria2Config
  | .obj fields => do
    let id ← reqField fields "id" decodeI64
    let server_port ← reqField fields "server_port" decodeU16
    let obfs ← optField fields "obfs" (decodeOption decodeString) none
    let up_mbps ← optField fields "up_mbps" (decodeOption decodeI32) none
    let down_mbps ← optField fields "down_mbps" (decodeOption decodeI32) none
    let ignore_cli_bandwidth ← optField fields "ignore_cli_bandwidth" decodeBool false
    let disable_udp ← optField fields "disable_udp" decodeBool false
    .ok { id := id, server_port := server_port, obfs := obfs, up_mbps := up_mbps,
          down_mbps := down_mbps, ignore_cli_bandwidth := ignore_cli_bandwidth,
          disable_udp := disable_udp }
  | _ => .error "invalid type: expected struct Hysteria2Config"

/-- `VMessConfig`. -/
structure VMessConfig where
  id : Int
  server_port : Nat
  tls : Bool
  network : Option String
  tls_config : Option TlsConfig
  websocket_config : Option WebSocketConfig
  h2_config : Option HttpConfig
  tcp_config : Option TcpConfig
  grpc_config : Option GrpcConfig
  router_settings : Option RouterConfig
  dns_settings : Option DnsConfig
deriving DecidableEq, Repr

def decodeVMessConfig : Json → Except String VMessConfig
  | .obj fields => do
    let id ← reqField fields "id" decodeI64
    let server_port ← reqField fields "server_port" decodeU16
    let tls ← optField fields "tls" decodeBool false
    let network ← optField fields "network" (decodeOption decodeString) none
    let tls_config ← optField fields "tls_config" (decodeOption decodeTlsConfig) none
    let websocket_config ← optField fields "websocket_config" (decodeOption decodeWebSocketConfig) none
    let h2_config ← optField fields "h2_config" (decodeOption decodeHttpConfig) none
    let tcp_config ← optField fields "tcp_config" (decodeOption decodeTcpConfig) none
    let grpc_config ← optField fields "grpc_config" (decodeOption decodeGrpcConfig) none
    let router_settings ← optField fields "router_settings" (decodeOption decodeRouterConfig) none
    let dns_settings ← optField fields "dns_settings" (decodeOption decodeDnsConfig) none
    .ok { id := id, server_port := server_port, tls := tls, network := network,
          tls_config := tls_config, websocket_config := websocket_config,
          h2_config := h2_config, tcp_config := tcp_config, grpc_config := grpc_config,
          router_settings := router_settings, dns_settings := dns_settings }
  | _ => .error "invalid type: expected struct VMessConfig"

/-- `AnyTLSConfig`. -/
structure AnyTLSConfig where
  id : Int
  server_port : Nat
  server_name : Option String
  padding_rules : Option (List String)
deriving DecidableEq, Repr

def decodeAnyTLSConfig : Json → Except String AnyTLSConfig
  | .obj fields => do
    let id ← reqField fields "id" decodeI64
    let server_port ← reqField fields "server_port" decodeU16
    let server_name ← optField fields "server_name" (decodeOption decodeString) none
    let padding_rules ← optField fields "padding_rules" (decodeOption (decodeList decodeString)) none
    .ok { id := id, server_port := server_port, server_name := server_name,
          padding_rules := padding_rules }
  | _ => .error "invalid type: expected struct AnyTLSConfig"

/-- `TuicConfig`: `zero_rtt_handshake` carries
`#[serde(default, deserialize_with = "bool_from_int")]` — absent decodes to
`false`, present goes through `bool_from_int`. -/
structure TuicConfig where
  id : Int
  server_port : Nat
  server_name : Option String
  zero_rtt_handshake : Bool
deriving DecidableEq, Repr

def decodeTuicConfig : Json → Except String TuicConfig
  | .obj fields => do
    let id ← reqField fields "id" decodeI64
    let server_port ← reqField fields "server_port" decodeU16
    let server_name ← optField fields "server_name" (decodeOption decodeString) none
    let zero_rtt_handshake ← optField fields "zero_rtt_handshake" bool_from_int false
    .ok { id := id, server_port := server_port, server_name := server_name,
          zero_rtt_handshake := zero_rtt_handshake }
  | _ => .error "invalid type: expected struct TuicConfig"

/-! ### `NodeConfigEnum` and `parse_config` -/

/-- The tagged union over per-protocol config records (`config.rs` 390–398). -/
inductive NodeConfigEnum where
  | Trojan (config : TrojanConfig)
  | ShadowSocks (config : ShadowsocksConfig)
  | Hysteria (config : HysteriaConfig)
  | Hysteria2 (config : Hysteria2Config)
  | VMess (config : VMessConfig)
  | AnyTLS (config : AnyTLSConfig)
  | Tuic (config : TuicConfig)
deriving DecidableEq, Repr

/-- `NodeConfigEnum::type_name` — canonical lowercase name of the active variant. -/
def NodeConfigEnum.type_name : NodeConfigEnum → String
  | .Trojan _ => "trojan"
  | .ShadowSocks _ => "shadowsocks"
  | .Hysteria _ => "hysteria"
  | .Hysteria2 _ => "hysteria2"
  | .VMess _ => "vmess"
  | .AnyTLS _ => "anytls"
  | .Tuic _ => "tuic"

/-- `NodeConfigEnum::as_trojan`. -/
def NodeConfigEnum.as_trojan : NodeConfigEnum → Except ApiError TrojanConfig
  | .Trojan config => .ok config
  | c => .error (.TypeConversionError "TrojanConfig" c.type_name)

/-- `NodeConfigEnum::as_shadowsocks`. -/
def NodeConfigEnum.as_shadowsocks : NodeConfigEnum → Except ApiError ShadowsocksConfig
  | .ShadowSocks config => .ok config
  | c => .error (.TypeConversionError "ShadowsocksConfig" c.type_name)

/-- `NodeConfigEnum::as_hysteria`. -/
def NodeConfigEnum.as_hysteria : NodeConfigEnum → Except ApiError HysteriaConfig
  | .Hysteria config => .ok config
  | c => .error (.TypeConversionError "HysteriaConfig" c.type_name)

/-- `NodeConfigEnum::as_hysteria2`. -/
def NodeConfigEnum.as_hysteria2 : NodeConfigEnum → Except ApiError Hysteria2Config
  | .Hysteria2 config => .ok config
  | c => .error (.TypeConversionError "Hysteria2Config" c.type_name)

/-- `NodeConfigEnum::as_vmess`. -/
def NodeConfigEnum.as_vmess : NodeConfigEnum → Except ApiError VMessConfig
  | .VMess config => .ok config
  | c => .error (.TypeConversionError "VMessConfig" c.type_name)

/-- `NodeConfigEnum::as_anytls`. -/
def NodeConfigEnum.as_anytls : NodeConfigEnum → Except ApiError AnyTLSConfig
  | .AnyTLS config => .ok config
  | c => .error (.TypeConversionError "AnyTLSConfig" c.type_name)

/-- `NodeConfigEnum::as_tuic`. -/
def NodeConfigEnum.as_tuic : NodeConfigEnum → Except ApiError TuicConfig
  | .Tuic config => .ok config
  | c => .error (.TypeConversionError "TuicConfig" c.type_name)

/-- `parse_config(node_type, data)` (`config.rs` 493–532): decodes the bytes
as the record shape of `node_type`, wrapping any decode failure as
`ApiError::parse_error(msg, "", ..)`.  The source lists a seventh match arm
`NodeType::Tuic`, but `node_type.rs` declares no such variant, so only the
six representable arms appear here. -/
def parse_config (node_type : NodeType) (data : Json) : Except ApiError NodeConfigEnum :=
  match node_type with
  | .Trojan => (decodeTrojanConfig data).map NodeConfigEnum.Trojan |>.mapError (fun e => .ParseError e "")
  | .ShadowSocks => (decodeShadowsocksConfig data).map NodeConfigEnum.ShadowSocks |>.mapError (fun e => .ParseError e "")
  | .Hysteria => (decodeHysteriaConfig data).map NodeConfigEnum.Hysteria |>.mapError (fun e => .ParseError e "")
  | .Hysteria2 => (decodeHysteria2Config data).map NodeConfigEnum.Hysteria2 |>.mapError (fun e => .ParseError e "")
  | .VMess => (decodeVMessConfig data).map NodeConfigEnum.VMess |>.mapError (fun e => .ParseError e "")
  | .AnyTLS => (decodeAnyTLSConfig data).map NodeConfigEnum.AnyTLS |>.mapError (fun e => .ParseError e "")

/-! ## `src/client.rs` — response classification and the ETag cache logic

An HTTP response is modelled by its status code, its header list, and the
result of reading its body as text (`none` when the body cannot be read,
matching the `unwrap_or_else` fallback in `check_response`).  Header lookup
(`HeaderMap::get`) is case-insensitive on the header name; header values are
modelled as strings, so the `to_str` step of `get_with_etag` always succeeds. -/

/-- An HTTP response as observed by the client code. -/
structure Response where
  status : Nat
  headers : List (String × String)
  body : Option String
deriving DecidableEq, Repr

/-- Case-insensitive header lookup (`reqwest::header::HeaderMap::get`). -/
def headerGet (headers : List (String × String)) (name : String) : Option String :=
  (headers.find? (fun p => toLowerStr p.1 = toLowerStr name)).map Prod.snd

/-- `StatusCode::is_success()` — 2xx. -/
def isSuccess (status : Nat) : Prop := 200 ≤ status ∧ status < 300

instance (status : Nat) : Decidable (isSuccess status) := by
  unfold isSuccess; infer_instance

/-- `check_response` (`client.rs` 186–203): 2xx passes through, 304 becomes
`ApiError::not_modified(url)`, anything else becomes
`ApiError::from_status_code(status, body-or-fallback, url)` with the fallback
message `"Unknown error"` when the body cannot be read. -/
def check_response (response : Response) (url : String) : Except ApiError Response :=
  if isSuccess response.status then .ok response
  else if response.status = 304 then .error (.NotModified url)
  else .error (.ServerError response.status (response.body.getD "Unknown error") url)

/-- The `etag_cache: HashMap<String, String>` as an association list with
overwrite-on-insert semantics. -/
abbrev EtagCache := List (String × String)

/-- `etag_cache.get(cache_key).cloned()`. -/
def cacheGet (cache : EtagCache) (key : String) : Option String :=
  (List.find? (fun p => p.1 = key) cache).map Prod.snd

/-- `etag_cache.insert(key, value)`. -/
def cacheInsert (cache : EtagCache) (key value : String) : EtagCache :=
  if List.any cache (fun p => p.1 = key) then
    List.map (fun p => if p.1 = key then (key, value) else p) cache
  else cache ++ [(key, value)]

/-- The observable result of one `get_with_etag` call: the `If-None-Match`
value attached to the outgoing request (if any), the returned
`Result<Response>`, and the cache state afterwards. -/
structure CondGetResult where
  sentIfNoneMatch : Option String
  outcome : Except ApiError Response
  cache : EtagCache

/-- The pure request/cache logic of `get_with_etag` (`client.rs` 115–158),
given the response the transport produces for the built URL: look up the
cached validator for `cacheKey` and attach it as `If-None-Match` when
present; on a 304 response return `ApiError::not_modified(url)` before any
cache write; otherwise store the response's `ETag` header (when present)
under `cacheKey` and classify the response via `check_response`. -/
def get_with_etag (cache : EtagCache) (cacheKey url : String) (response : Response) :
    CondGetResult :=
  let etag := cacheGet cache cacheKey
  if response.status = 304 then
    { sentIfNoneMatch := etag, outcome := .error (.NotModified url), cache := cache }
  else
    let cache2 := match headerGet response.headers "ETag" with
      | some v => cacheInsert cache cacheKey v
      | none => cache
    { sentIfNoneMatch := etag, outcome := check_response response url, cache := cache2 }

/-- Cache key used by the users endpoints: `format!("{}:{}", node_type, register_id)`. -/
def usersCacheKey (node_type : NodeType) (register_id : String) : String :=
  node_type.as_str ++ ":" ++ register_id

/-! ## Theorems -/

/-- Inserting into the association-list map makes the inserted value the one
observed at that key. -/
theorem mapGet_mapInsert (m : List (Int × Int)) (k v : Int) :
    mapGet (mapInsert m k v) k = some v := by
  induction m with
  | nil => simp [mapGet, mapInsert]
  | cons p rest ih =>
    by_cases h : p.1 = k
    · simp [mapGet, mapInsert, h]
    · by_cases ha : rest.any (fun q => q.1 = k)
      · have hm : mapInsert (p :: rest) k v =
            p :: rest.map (fun q => if q.1 = k then (k, v) else q) := by
          simp [mapInsert, h, ha]
        have hr : mapInsert rest k v = rest.map (fun q => if q.1 = k then (k, v) else q) := by
          simp [mapInsert, ha]
        rw [hr] at ih
        simpa [mapGet, hm, h] using ih
      · have hm : mapInsert (p :: rest) k v = p :: (rest ++ [(k, v)]) := by
          simp [mapInsert, h, ha]
        have hr : mapInsert rest k v = rest ++ [(k, v)] := by
          simp [mapInsert, ha]
        rw [hr] at ih
        simpa [mapGet, hm, h] using ih

/-- Analogue of `mapGet_mapInsert` for the ETag cache. -/
theorem cacheGet_cacheInsert (c : EtagCache) (k v : String) :
    cacheGet (cacheInsert c k v) k = some v := by
  induction c with
  | nil => simp [cacheGet, cacheInsert]
  | cons p rest ih =>
    by_cases h : p.1 = k
    · simp [cacheGet, cacheInsert, h]
    · by_cases ha : rest.any (fun q => q.1 = k)
      · have hm : cacheInsert (p :: rest) k v =
            p :: rest.map (fun q => if q.1 = k then (k, v) else q) := by
          simp [cacheInsert, h, ha]
        have hr : cacheInsert rest k v = rest.map (fun q => if q.1 = k then (k, v) else q) := by
          simp [cacheInsert, ha]
        rw [hr] at ih
        simpa [cacheGet, hm, h] using ih
      · have hm : cacheInsert (p :: rest) k v = p :: (rest ++ [(k, v)]) := by
          simp [cacheInsert, h, ha]
        have hr : cacheInsert rest k v = rest ++ [(k, v)] := by
          simp [cacheInsert, ha]
        rw [hr] at ih
        simpa [cacheGet, hm, h] using ih

/-- Effect of folding `add_user` over a list of `(user_id, requests)` pairs. -/
theorem add_user_foldl (ops : List (Int × Int)) (s : TrafficStats) :
    (ops.foldl (fun acc p => acc.add_user p.1 p.2) s).count = s.count + ops.length ∧
    (ops.foldl (fun acc p => acc.add_user p.1 p.2) s).user_ids = s.user_ids ++ ops.map Prod.fst ∧
    (ops.foldl (fun acc p => acc.add_user p.1 p.2) s).requests = s.requests + (ops.map Prod.snd).sum := by
  induction ops generalizing s with
  | nil => simp
  | cons p rest ih =>
    obtain ⟨h1, h2, h3⟩ := ih (s.add_user p.1 p.2)
    simp only [List.foldl_cons]
    refine ⟨?_, ?_, ?_⟩
    · rw [h1]
      simp only [TrafficStats.add_user, List.length_cons]
      push_cast
      ring
    · rw [h2]
      simp [TrafficStats.add_user, List.append_assoc]
    · rw [h3]
      simp only [TrafficStats.add_user, List.map_cons, List.sum_cons]
      ring

/-- C3: the claim reads `NodeType` as a seven-member enum whose `parse`
accepts `"tuic"`.  In `node_type.rs` the enum has only six members and
`from_str("tuic")` fails; the rest of the crate (`parse_config`'s
`NodeType::Tuic` arm, the examples) nonetheless references a `Tuic` variant,
so the declaring file contradicts its own crate.  This theorem evaluates the
declared code at the failing input. -/
theorem C3_fromStr_tuic_fails :
    NodeType.fromStr "tuic" = .error "Unknown node type: tuic" := rfl

/-- C4: every string accepted by `NodeType` parsing maps to a variant whose
`as_str` is the lowercasing of the input — except the `"ss"` alias, which
yields `ShadowSocks` (whose `as_str` is `"shadowsocks"`); every rejected
string produces the error `"Unknown node type: <input>"`. -/
theorem C4_parse_as_str_round_trip (s : String) :
    (∀ nt, NodeType.fromStr s = .ok nt →
      nt.as_str = (if toLowerStr s = "ss" then "shadowsocks" else toLowerStr s) ∧
      (toLowerStr s = "ss" → nt = NodeType.ShadowSocks)) ∧
    (∀ e, NodeType.fromStr s = .error e → e = "Unknown node type: " ++ s) := by
  unfold NodeType.fromStr
  constructor
  · intro nt h
    split at h <;>
      first
        | exact Except.noConfusion h
        | (rename_i heq
           injection h with h
           subst h
           rw [heq]
           decide)
  · intro e h
    split at h <;>
      first
        | exact Except.noConfusion h
        | (injection h with h
           exact h.symm)

/-- Closed instance of C4: `"SS"` parses (case-insensitively) to
`ShadowSocks`, the non-round-tripping alias, and `"Trojan"` round-trips to
its lowercase form. -/
theorem C4_parse_as_str_round_trip_witness :
    NodeType.ShadowSocks.as_str = "shadowsocks" ∧
    NodeType.Trojan.as_str = toLowerStr "Trojan" ∧
    "Unknown node type: bogus" = "Unknown node type: " ++ "bogus" := by
  have hss := (C4_parse_as_str_round_trip "SS").1 NodeType.ShadowSocks rfl
  have htr := (C4_parse_as_str_round_trip "Trojan").1 NodeType.Trojan rfl
  have hb := (C4_parse_as_str_round_trip "bogus").2 "Unknown node type: bogus" rfl
  refine ⟨?_, ?_, hb⟩
  · rw [hss.1]; decide
  · rw [htr.1]; decide

/-- C1: a conditional GET attaches exactly the cached validator (none when
the cache has no entry for the cache key, `abc` when it holds `abc`), and a
304 response is surfaced as the `NotModified` outcome carrying the requested
URL with the cache left unchanged. -/
theorem C1_conditional_get (cache : EtagCache) (cacheKey url : String) (response : Response) :
    (get_with_etag cache cacheKey url response).sentIfNoneMatch = cacheGet cache cacheKey ∧
    (response.status = 304 →
      (get_with_etag cache cacheKey url response).outcome = .error (.NotModified url) ∧
      (get_with_etag cache cacheKey url response).cache = cache) := by
  unfold get_with_etag
  by_cases h : response.status = 304 <;> simp [h]

/-- Closed instance of C1: with cached validator `abc` under key `k`, the
request carries `If-None-Match: abc` and a 304 yields `NotModified` with the
cache intact; with an empty cache no conditional header is attached. -/
theorem C1_conditional_get_witness :
    (get_with_etag [("k", "abc")] "k" "http://u" ⟨304, [], none⟩).sentIfNoneMatch = some "abc" ∧
    (get_with_etag [] "k" "http://u" ⟨304, [], none⟩).sentIfNoneMatch = none ∧
    (get_with_etag [("k", "abc")] "k" "http://u" ⟨304, [], none⟩).outcome =
      .error (.NotModified "http://u") ∧
    (get_with_etag [("k", "abc")] "k" "http://u" ⟨304, [], none⟩).cache = [("k", "abc")] := by
  have h1 := C1_conditional_get [("k", "abc")] "k" "http://u" ⟨304, [], none⟩
  have h2 := C1_conditional_get [] "k" "http://u" ⟨304, [], none⟩
  refine ⟨?_, ?_, (h1.2 rfl).1, (h1.2 rfl).2⟩
  · rw [h1.1]; rfl
  · rw [h2.1]; rfl

/-- C2 counterexample: the claim says a non-2xx, non-304 response leaves the
cache entry unchanged, but `get_with_etag` stores the `ETag` header before
status checking — a 404 carrying `ETag: xyz` overwrites the (previously
absent) entry. -/
theorem C2_cache_update_counterexample :
    cacheGet (get_with_etag [] "k" "http://u"
        { status := 404, headers := [("ETag", "xyz")], body := some "Node not found" }).cache
      "k" = some "xyz" ∧
    cacheGet ([] : EtagCache) "k" = none ∧
    ¬ (cacheGet (get_with_etag [] "k" "http://u"
        { status := 404, headers := [("ETag", "xyz")], body := some "Node not found" }).cache
      "k" = cacheGet ([] : EtagCache) "k") := by
  refine ⟨by decide, by decide, by decide⟩

/-- C2 (amended): the cache entry for the cache key is overwritten with the
response's ETag header value iff the response status is not 304 and an ETag
header is present (regardless of the status class); on a 304, or when no
ETag header is present, the cache is unchanged. -/
theorem C2_cache_update_amended (cache : EtagCache) (cacheKey url : String) (response : Response) :
    (response.status ≠ 304 → ∀ v, headerGet response.headers "ETag" = some v →
      (get_with_etag cache cacheKey url response).cache = cacheInsert cache cacheKey v ∧
      cacheGet (get_with_etag cache cacheKey url response).cache cacheKey = some v) ∧
    (response.status ≠ 304 → headerGet response.headers "ETag" = none →
      (get_with_etag cache cacheKey url response).cache = cache) ∧
    (response.status = 304 → (get_with_etag cache cacheKey url response).cache = cache) := by
  refine ⟨fun h v hv => ?_, fun h hv => ?_, fun h => ?_⟩
  · unfold get_with_etag
    simp only [h, if_neg h, hv]
    exact ⟨rfl, cacheGet_cacheInsert cache cacheKey v⟩
  · unfold get_with_etag
    simp [h, hv]
  · unfold get_with_etag
    simp [h]

/-- Closed instance of the amended C2: a 404 with `ETag: xyz` overwrites the
entry for `k` to `xyz`. -/
theorem C2_cache_update_amended_witness :
    cacheGet (get_with_etag [("k", "abc")] "k" "http://u"
        { status := 404, headers := [("ETag", "xyz")], body := some "Node not found" }).cache
      "k" = some "xyz" := by
  exact ((C2_cache_update_amended [("k", "abc")] "k" "http://u"
    { status := 404, headers := [("ETag", "xyz")], body := some "Node not found" }).1
    (by decide) "xyz" (by decide)).2

/-- C7: `check_response` classifies a 2xx response as success (passing the
response through), a 304 as `NotModified` carrying the URL, and any other
status as `ServerError` carrying the status code, the body text (or the
fallback `"Unknown error"` when the body cannot be read) and the URL. -/
theorem C7_check_response_classification (response : Response) (url : String) :
    (isSuccess response.status → check_response response url = .ok response) ∧
    (response.status = 304 → check_response response url = .error (.NotModified url)) ∧
    (¬ isSuccess response.status → response.status ≠ 304 →
      check_response response url =
        .error (.ServerError response.status (response.body.getD "Unknown error") url)) := by
  refine ⟨fun h => ?_, fun h => ?_, fun h1 h2 => ?_⟩
  · unfold check_response
    rw [if_pos h]
  · have hns : ¬ isSuccess response.status := by
      rw [h]; decide
    unfold check_response
    rw [if_neg hns, if_pos h]
  · unfold check_response
    rw [if_neg h1, if_neg h2]

/-- Closed instance of C7: a 404 with body `Node not found` surfaces as
`ServerError { status_code := 404, message := "Node not found", url := .. }`,
and a bodyless 500 falls back to the `"Unknown error"` message. -/
theorem C7_check_response_classification_witness :
    check_response { status := 404, headers := [], body := some "Node not found" } "http://u" =
      .error (.ServerError 404 "Node not found" "http://u") ∧
    check_response { status := 500, headers := [], body := none } "http://u" =
      .error (.ServerError 500 "Unknown error" "http://u") ∧
    check_response { status := 200, headers := [], body := some "{}" } "http://u" =
      .ok { status := 200, headers := [], body := some "{}" } ∧
    check_response { status := 304, headers := [], body := none } "http://u" =
      .error (.NotModified "http://u") := by
  refine ⟨?_, ?_, ?_, ?_⟩
  · exact (C7_check_response_classification _ "http://u").2.2 (by decide) (by decide)
  · exact (C7_check_response_classification _ "http://u").2.2 (by decide) (by decide)
  · exact (C7_check_response_classification _ "http://u").1 (by decide)
  · exact (C7_check_response_classification _ "http://u").2.1 rfl

/-- C5: whenever `parse_config(ShadowSocks, data)` succeeds, the resulting
config is the `ShadowSocks` variant, `as_shadowsocks` returns its record, and
every other narrowing accessor fails with a `TypeConversionError` whose
`actual` field is `"shadowsocks"` — in particular `as_trojan` fails with
`expected = "TrojanConfig"`. -/
theorem C5_shadowsocks_parse_narrowing (data : Json) (cfg : NodeConfigEnum)
    (h : parse_config NodeType.ShadowSocks data = .ok cfg) :
    (∃ sc, cfg = .ShadowSocks sc ∧ cfg.as_shadowsocks = .ok sc) ∧
    cfg.as_trojan = .error (.TypeConversionError "TrojanConfig" "shadowsocks") ∧
    cfg.as_hysteria = .error (.TypeConversionError "HysteriaConfig" "shadowsocks") ∧
    cfg.as_hysteria2 = .error (.TypeConversionError "Hysteria2Config" "shadowsocks") ∧
    cfg.as_vmess = .error (.TypeConversionError "VMessConfig" "shadowsocks") ∧
    cfg.as_anytls = .error (.TypeConversionError "AnyTLSConfig" "shadowsocks") ∧
    cfg.as_tuic = .error (.TypeConversionError "TuicConfig" "shadowsocks") := by
  unfold parse_config at h
  cases hd : decodeShadowsocksConfig data with
  | ok sc =>
    rw [hd] at h
    simp only [Except.map, Except.mapError] at h
    injection h with h
    subst h
    exact ⟨⟨sc, rfl, rfl⟩, rfl, rfl, rfl, rfl, rfl, rfl⟩
  | error e =>
    rw [hd] at h
    simp only [Except.map, Except.mapError] at h
    exact Except.noConfusion h

/-- Closed instance of C5: a well-formed ShadowSocks body parses to the
`ShadowSocks` variant, whose `as_trojan` fails with
`TypeConversionError { expected := "TrojanConfig", actual := "shadowsocks" }`. -/
theorem C5_shadowsocks_parse_narrowing_witness :
    parse_config NodeType.ShadowSocks
        (Json.obj [("id", Json.int 1), ("server_port", Json.int 8388),
          ("method", Json.str "aes-128-gcm")]) =
      .ok (.ShadowSocks { id := 1, server_port := 8388, method := some "aes-128-gcm", network := none }) ∧
    (NodeConfigEnum.ShadowSocks
        { id := 1, server_port := 8388, method := some "aes-128-gcm", network := none }).as_shadowsocks =
      .ok { id := 1, server_port := 8388, method := some "aes-128-gcm", network := none } ∧
    (NodeConfigEnum.ShadowSocks
        { id := 1, server_port := 8388, method := some "aes-128-gcm", network := none }).as_trojan =
      .error (.TypeConversionError "TrojanConfig" "shadowsocks") := by
  have hp : parse_config NodeType.ShadowSocks
      (Json.obj [("id", Json.int 1), ("server_port", Json.int 8388),
        ("method", Json.str "aes-128-gcm")]) =
      .ok (.ShadowSocks { id := 1, server_port := 8388, method := some "aes-128-gcm", network := none }) := by
    decide
  have hn := C5_shadowsocks_parse_narrowing _ _ hp
  obtain ⟨⟨sc, hsc, hok⟩, htr, _⟩ := hn
  refine ⟨hp, ?_, htr⟩
  injection hsc with hsc
  rw [← hsc] at hok
  exact hok

/-- C6: when decoding a `TuicConfig`, the `zero_rtt_handshake` field accepts
either a JSON boolean (decoding to its own value) or a JSON integer `i`
(decoding to `i != 0`, so `1` and every nonzero integer give `true` and `0`
gives `false`). -/
theorem C6_zero_rtt_handshake_leniency (i : Int) (b : Bool) :
    bool_from_int (.int i) = .ok (decide (i ≠ 0)) ∧
    bool_from_int (.int 1) = .ok true ∧
    bool_from_int (.int 0) = .ok false ∧
    bool_from_int (.bool b) = .ok b ∧
    (decodeTuicConfig (.obj [("id", .int 1), ("server_port", .int 443),
        ("zero_rtt_handshake", .int i)])).map TuicConfig.zero_rtt_handshake =
      .ok (decide (i ≠ 0)) ∧
    (decodeTuicConfig (.obj [("id", .int 1), ("server_port", .int 443),
        ("zero_rtt_handshake", .bool b)])).map TuicConfig.zero_rtt_handshake = .ok b := by
  exact ⟨rfl, by decide, by decide, rfl, rfl, rfl⟩

/-- C8: `TrafficStats::new()` is all-zero/empty, and after
`add_user(1,100)` then `add_user(2,200)` the state is exactly as the spec
describes (count 2, requests 300, ids in call order, per-user map). -/
theorem C8_traffic_stats_sequence :
    TrafficStats.new.count = 0 ∧
    TrafficStats.new.requests = 0 ∧
    TrafficStats.new.user_ids = [] ∧
    TrafficStats.new.user_requests = [] ∧
    ((TrafficStats.new.add_user 1 100).add_user 2 200).count = 2 ∧
    ((TrafficStats.new.add_user 1 100).add_user 2 200).requests = 300 ∧
    ((TrafficStats.new.add_user 1 100).add_user 2 200).user_ids = [1, 2] ∧
    mapGet ((TrafficStats.new.add_user 1 100).add_user 2 200).user_requests 1 = some 100 ∧
    mapGet ((TrafficStats.new.add_user 1 100).add_user 2 200).user_requests 2 = some 200 := by
  decide

/-- C9: serializing a `UserTraffic` record (upload/download/count under the
single-letter keys `u`/`d`/`n`) and deserializing the result reproduces the
record, for every record within the source's `i64`/`u64` field ranges. -/
theorem C9_user_traffic_round_trip (t : UserTraffic)
    (hid : -(2 ^ 63) ≤ t.user_id ∧ t.user_id < 2 ^ 63)
    (hu : t.u < 2 ^ 64) (hd : t.d < 2 ^ 64) (hn : t.n < 2 ^ 64) :
    UserTraffic.fromJson (UserTraffic.toJson t) = .ok t ∧
    Json.getField (UserTraffic.toJson t).objFields "u" = some (.int t.u) ∧
    Json.getField (UserTraffic.toJson t).objFields "d" = some (.int t.d) ∧
    Json.getField (UserTraffic.toJson t).objFields "n" = some (.int t.n) := by
  have g1 : Json.getField [("user_id", Json.int t.user_id), ("u", Json.int (t.u : Int)),
      ("d", Json.int (t.d : Int)), ("n", Json.int (t.n : Int))] "user_id" =
      some (Json.int t.user_id) := rfl
  have g2 : Json.getField [("user_id", Json.int t.user_id), ("u", Json.int (t.u : Int)),
      ("d", Json.int (t.d : Int)), ("n", Json.int (t.n : Int))] "u" =
      some (Json.int (t.u : Int)) := rfl
  have g3 : Json.getField [("user_id", Json.int t.user_id), ("u", Json.int (t.u : Int)),
      ("d", Json.int (t.d : Int)), ("n", Json.int (t.n : Int))] "d" =
      some (Json.int (t.d : Int)) := rfl
  have g4 : Json.getField [("user_id", Json.int t.user_id), ("u", Json.int (t.u : Int)),
      ("d", Json.int (t.d : Int)), ("n", Json.int (t.n : Int))] "n" =
      some (Json.int (t.n : Int)) := rfl
  have h1 : decodeI64 (Json.int t.user_id) = .ok t.user_id := by
    have hstep : decodeI64 (Json.int t.user_id) =
        if -(2 ^ 63) ≤ t.user_id ∧ t.user_id < 2 ^ 63 then .ok t.user_id
        else .error "invalid value: integer out of range of i64" := rfl
    rw [hstep, if_pos hid]
  have hu64 : ∀ m : Nat, m < 2 ^ 64 → decodeU64 (Json.int (m : Int)) = .ok m := by
    intro m hm
    have hstep : decodeU64 (Json.int (m : Int)) =
        if 0 ≤ (m : Int) ∧ (m : Int) < 2 ^ 64 then .ok (m : Int).toNat
        else .error "invalid value: integer out of range of u64" := rfl
    rw [hstep, if_pos ⟨Int.natCast_nonneg _, by exact_mod_cast hm⟩]
    simp
  refine ⟨?_, g2, g3, g4⟩
  simp only [UserTraffic.toJson, UserTraffic.fromJson, g1, g2, g3, g4, h1,
    hu64 t.u hu, hu64 t.d hd, hu64 t.n hn]
  rfl

/-- Closed instance of C9: the spec's example record round-trips. -/
theorem C9_user_traffic_round_trip_witness :
    UserTraffic.fromJson (UserTraffic.toJson { user_id := 1, u := 1000, d := 2000, n := 5 }) =
      .ok { user_id := 1, u := 1000, d := 2000, n := 5 } := by
  exact (C9_user_traffic_round_trip { user_id := 1, u := 1000, d := 2000, n := 5 }
    (by decide) (by decide) (by decide) (by decide)).1

/-- C10: along any sequence of `add_user` calls from `new`, `count` equals
the length of `user_ids` and `requests` is the sum of all passed request
counts; each call appends its id (so a repeated id duplicates) and still
increments `count`, while the per-user map keeps only the last value — after
`add_user(1,5)` then `add_user(1,7)` the state has `count = 2` but a single
map entry, so `count` exceeds the number of map entries. -/
theorem C10_add_user_invariants (ops : List (Int × Int)) :
    ((ops.foldl (fun acc p => acc.add_user p.1 p.2) TrafficStats.new).count =
      ((ops.foldl (fun acc p => acc.add_user p.1 p.2) TrafficStats.new).user_ids.length : Int)) ∧
    ((ops.foldl (fun acc p => acc.add_user p.1 p.2) TrafficStats.new).requests =
      (ops.map Prod.snd).sum) ∧
    (∀ (st : TrafficStats) (uid r : Int),
      (st.add_user uid r).user_ids = st.user_ids ++ [uid] ∧
      (st.add_user uid r).count = st.count + 1 ∧
      mapGet (st.add_user uid r).user_requests uid = some r) ∧
    (((TrafficStats.new.add_user 1 5).add_user 1 7).count = 2 ∧
      ((TrafficStats.new.add_user 1 5).add_user 1 7).user_ids = [1, 1] ∧
      ((TrafficStats.new.add_user 1 5).add_user 1 7).user_requests.length = 1 ∧
      mapGet ((TrafficStats.new.add_user 1 5).add_user 1 7).user_requests 1 = some 7) := by
  obtain ⟨h1, h2, h3⟩ := add_user_foldl ops TrafficStats.new
  refine ⟨?_, ?_, ?_, by decide⟩
  · rw [h1, h2]
    simp [TrafficStats.new]
  · rw [h3]
    simp [TrafficStats.new]
  · intro st uid r
    exact ⟨rfl, rfl, mapGet_mapInsert _ _ _⟩

end ServerRClient
